import Mathlib

set_option linter.unnecessarySimpa false
set_option linter.unusedVariables false

/-!
Shallow embedding of the vidoechat signaling relay.

The main development (namespace Vidoechat) embeds the full-featured server
variant of the repository (`src/unnamed/part_000`): the connection registry,
the room registry, every message handler of its dispatch switch, the
disconnect teardown path, and the presence broadcaster.  Connections are
modelled as natural numbers standing for the `*websocket.Conn` handles; the
two Go maps `clients` (keyed by connection) and `clientsByID` (keyed by
client id) both point at the same `ClientInfo` records and are modelled as a
single list of records carrying both keys.  Outgoing writes are modelled as
an output list; `sendMessage` is assumed to succeed (the write-failure
cleanup path is not modelled).  The `time.Time` field `LastSeen` is modelled
as a natural number supplied as a `now` parameter where the code reads the
clock, and the UUIDs produced by `uuid.New().String()` are supplied as a
`fresh` string parameter.

The nested namespace V1 embeds `handleAcceptCall` of the lazy-room variant
(`src/unnamed/part_001`), the variant that guards acceptance against an
already existing room.
-/

namespace Vidoechat

/-- Status constants of `src/unnamed/part_000`. -/
def StatusIdle : String := "idle"

def StatusCalling : String := "calling"

def StatusRinging : String := "ringing"

def StatusInCall : String := "in-call"

/-- One `{id, status}` entry of a presence snapshot. -/
structure Peer where
  id : String
  status : String
deriving DecidableEq

/-- The wire message structure (`type Message struct`); fields absent from a
concrete message keep their `omitempty` zero values. -/
structure Message where
  type : String := ""
  callID : String := ""
  data : String := ""
  callerID : String := ""
  reason : String := ""
  peers : List Peer := []
  peerID : String := ""
  status : String := ""
deriving DecidableEq

/-- One registered client (`type ClientInfo struct`).  `conn` models the
`*websocket.Conn` handle; the record is simultaneously the entry of
`clients[conn]` and of `clientsByID[id]`. -/
structure ClientInfo where
  conn : Nat
  id : String
  status : String
  callID : String := ""
  isCaller : Bool := false
  lastSeen : Nat := 0
deriving DecidableEq

/-- One active call session (`type Room struct`).  `participants` models the
`map[*websocket.Conn]bool` set; the two nilable connection pointers become
options. -/
structure Room where
  id : String
  participants : List Nat
  callerConn : Option Nat := none
  calleeConn : Option Nat := none
deriving DecidableEq

/-- The shared mutable state: the client registry (the synchronized pair of
maps `clients`/`clientsByID`) and the room registry (`rooms`). -/
structure ServerState where
  clients : List ClientInfo
  rooms : List Room
deriving DecidableEq

/-- Observable effects of a handler: a JSON write to one connection, or
closing a connection. -/
inductive Output where
  | send (conn : Nat) (msg : Message)
  | closeConn (conn : Nat)
deriving DecidableEq

/-- Lookup `clients[conn]`. -/
def findByConn (s : ServerState) (conn : Nat) : Option ClientInfo :=
  s.clients.find? (fun c => c.conn == conn)

/-- Lookup `clientsByID[id]`. -/
def findByID (s : ServerState) (id : String) : Option ClientInfo :=
  s.clients.find? (fun c => c.id == id)

/-- Mutation through the shared `*ClientInfo` pointer held under `clients[conn]`. -/
def updateByConn (s : ServerState) (conn : Nat) (f : ClientInfo → ClientInfo) : ServerState :=
  { s with clients := s.clients.map (fun c => if c.conn == conn then f c else c) }

/-- `delete(clientsByID, c.ID); delete(clients, conn)` — the registries stay
in sync, so removing the record by its connection key removes it from both
maps. -/
def removeByConn (s : ServerState) (conn : Nat) : ServerState :=
  { s with clients := s.clients.filter (fun c => !(c.conn == conn)) }

/-- Lookup `rooms[cid]`. -/
def roomsFind (s : ServerState) (cid : String) : Option Room :=
  s.rooms.find? (fun r => r.id == cid)

/-- Map assignment `rooms[room.ID] = room` (insert or replace). -/
def roomsInsert (s : ServerState) (room : Room) : ServerState :=
  { s with rooms := room :: s.rooms.filter (fun r => !(r.id == room.id)) }

/-- `delete(rooms, cid)`; deleting an absent key is a no-op, so the erase is
written unconditionally. -/
def roomsErase (s : ServerState) (cid : String) : ServerState :=
  { s with rooms := s.rooms.filter (fun r => !(r.id == cid)) }

/-- `func resetClientState`. -/
def resetClientState (c : ClientInfo) : ClientInfo :=
  { c with status := StatusIdle, callID := "", isCaller := false }

/-- The `(clientId, status)` snapshot taken by `broadcastPeerList`. -/
def peerListOf (s : ServerState) : List Peer :=
  s.clients.map (fun c => { id := c.id, status := c.status })

/-- `func broadcastPeerList`: one `peer_list` message to every connection. -/
def broadcastPeerList (s : ServerState) : List Output :=
  s.clients.map (fun c => Output.send c.conn { type := "peer_list", peers := peerListOf s })

/-- `func handleConnections`: register the accepted connection as an idle
client (the id stands for the generated UUID) and broadcast presence. -/
def connectClient (s : ServerState) (conn : Nat) (id : String) : ServerState × List Output :=
  let s1 : ServerState :=
    { s with clients := s.clients ++ [{ conn := conn, id := id, status := StatusIdle }] }
  (s1, broadcastPeerList s1)

/-- `func handleRegister`: force the sender idle, reply `register_success`,
broadcast presence.  The sender's `CallID` is left untouched. -/
def handleRegister (s : ServerState) (conn : Nat) : ServerState × List Output :=
  match findByConn s conn with
  | none => (s, [])
  | some c =>
    let s1 := updateByConn s conn (fun cl => { cl with status := StatusIdle })
    (s1, Output.send conn { type := "register_success", peerID := c.id } :: broadcastPeerList s1)

/-- `func handleInitiateCall` of part_000: require the sender idle, scan for
the first other idle client, eagerly create a room holding only the caller
under `msg.callID` (or a fresh UUID when the message carries none), move the
pair to calling/ringing and forward the offer payload to the callee. -/
def handleInitiateCall (fresh : String) (s : ServerState) (conn : Nat) (msg : Message) :
    ServerState × List Output :=
  match findByConn s conn with
  | none => (s, [])
  | some caller =>
    if caller.status ≠ StatusIdle then
      (s, [Output.send conn { type := "error", data := "Already in a call" }])
    else
      match s.clients.find? (fun c => c.id != caller.id && c.status == StatusIdle) with
      | none => (s, [Output.send conn { type := "error", data := "No available peers" }])
      | some callee =>
        if callee.status ≠ StatusIdle then
          (s, [Output.send conn { type := "error", data := "Peer is no longer available" }])
        else
          let callID := if msg.callID = "" then fresh else msg.callID
          let s1 := roomsInsert s
            { id := callID, participants := [conn], callerConn := some conn, calleeConn := none }
          let s2 := updateByConn s1 conn (fun c =>
            { c with status := StatusCalling, callID := callID, isCaller := true })
          let s3 := updateByConn s2 callee.conn (fun c =>
            { c with status := StatusRinging, callID := callID, isCaller := false })
          (s3, Output.send callee.conn
              { type := "offer", callID := callID, data := msg.data, callerID := caller.id }
            :: broadcastPeerList s3)

/-- `func handlePresenceUpdate`: overwrite the sender's status with the
client-supplied string (when non-empty), refresh `LastSeen`, broadcast. -/
def handlePresenceUpdate (now : Nat) (s : ServerState) (conn : Nat) (msg : Message) :
    ServerState × List Output :=
  if msg.status = "" then (s, [])
  else
    let s1 := updateByConn s conn (fun c => { c with status := msg.status, lastSeen := now })
    (s1, broadcastPeerList s1)

/-- Set-insert into a room's participant map. -/
def addParticipant (ps : List Nat) (conn : Nat) : List Nat :=
  if ps.contains conn then ps else ps ++ [conn]

/-- `func handleAcceptCall` of part_000: look the caller up by the
`callerId` field, complete (or defensively create) the room, move both
parties to in-call and forward the answer payload to the caller. -/
def handleAcceptCall (s : ServerState) (conn : Nat) (msg : Message) : ServerState × List Output :=
  match findByConn s conn with
  | none => (s, [])
  | some _ =>
    match findByID s msg.callerID with
    | none =>
      let s1 := updateByConn s conn resetClientState
      (s1, [Output.send conn { type := "error", data := "Caller not found" }])
    | some caller =>
      let s1 :=
        match roomsFind s msg.callID with
        | some _ =>
          { s with rooms := s.rooms.map (fun r =>
              if r.id == msg.callID then
                { r with participants := addParticipant r.participants conn,
                         calleeConn := some conn }
              else r) }
        | none =>
          roomsInsert s { id := msg.callID, participants := [caller.conn, conn],
                          callerConn := some caller.conn, calleeConn := some conn }
      let s2 := updateByConn s1 caller.conn (fun c => { c with status := StatusInCall })
      let s3 := updateByConn s2 conn (fun c => { c with status := StatusInCall })
      (s3, Output.send caller.conn { type := "answer", callID := msg.callID, data := msg.data }
        :: broadcastPeerList s3)

/-- `func handleRejectCall` of part_000: find the initiator of `msg.callID`
(the client flagged `IsCaller`), notify it with `call_rejected` carrying the
supplied reason, reset initiator and sender, broadcast.  The room registry
is not touched. -/
def handleRejectCall (s : ServerState) (conn : Nat) (msg : Message) : ServerState × List Output :=
  match s.clients.find? (fun c => c.callID == msg.callID && c.isCaller) with
  | some caller =>
    let s1 := updateByConn s caller.conn resetClientState
    let s2 := updateByConn s1 conn resetClientState
    (s2, Output.send caller.conn
        { type := "call_rejected", callID := msg.callID, reason := msg.reason }
      :: broadcastPeerList s2)
  | none =>
    let s2 := updateByConn s conn resetClientState
    (s2, broadcastPeerList s2)

/-- `func handleICECandidate` of part_000: drop unless the sender's own
`CallID` matches the message, the room exists, and the sender is one of the
room's two connection slots; otherwise forward the payload verbatim to the
other slot.  Every failure path drops silently. -/
def handleICECandidate (s : ServerState) (conn : Nat) (msg : Message) :
    ServerState × List Output :=
  match findByConn s conn with
  | none => (s, [])
  | some sender =>
    if sender.callID ≠ msg.callID then (s, [])
    else
      match roomsFind s msg.callID with
      | none => (s, [])
      | some room =>
        let recipient : Option Nat :=
          if room.callerConn = some conn then room.calleeConn
          else if room.calleeConn = some conn then room.callerConn
          else none
        match recipient with
        | none => (s, [])
        | some rc =>
          (s, [Output.send rc { type := "ice-candidate", callID := msg.callID, data := msg.data }])

/-- `func handleOffer` of part_000: forward an offer within an existing room
to the other connection slot. -/
def handleOffer (s : ServerState) (conn : Nat) (msg : Message) : ServerState × List Output :=
  match roomsFind s msg.callID with
  | none => (s, [])
  | some room =>
    let recipient : Option Nat :=
      if room.callerConn = some conn then room.calleeConn else room.callerConn
    match recipient with
    | none => (s, [])
    | some rc =>
      (s, [Output.send rc { type := "offer", callID := msg.callID, data := msg.data }])

/-- `func handleHangup` of part_000: delete the room under the call id named
by the message (no participation check; a sender that is neither slot is
treated like the callee, so the caller slot is picked as the other party),
notify and reset the other party, reset the sender, broadcast. -/
def handleHangup (s : ServerState) (conn : Nat) (callID reason : String) :
    ServerState × List Output :=
  let roomOpt := roomsFind s callID
  let otherConn : Option Nat :=
    match roomOpt with
    | some room => if room.callerConn = some conn then room.calleeConn else room.callerConn
    | none => none
  let s1 := roomsErase s callID
  let s2 :=
    match otherConn with
    | some oc => updateByConn s1 oc resetClientState
    | none => s1
  let outs :=
    match otherConn with
    | some oc => [Output.send oc { type := "peer_disconnected", callID := callID, reason := reason }]
    | none => []
  let s3 := updateByConn s2 conn resetClientState
  (s3, outs ++ broadcastPeerList s3)

/-- The deferred teardown of `func handleClient`: when the reader loop ends,
synthesize a hangup if the client is in one of the three call states, remove
it from both registry maps, close the transport, broadcast presence. -/
def handleDisconnect (s : ServerState) (conn : Nat) : ServerState × List Output :=
  match findByConn s conn with
  | none => (s, [])
  | some c =>
    let p1 :=
      if c.status = StatusInCall ∨ c.status = StatusCalling ∨ c.status = StatusRinging then
        handleHangup s conn c.callID "disconnected"
      else (s, [])
    let s2 := removeByConn p1.1 conn
    (s2, p1.2 ++ Output.closeConn conn :: broadcastPeerList s2)

/-- `client.LastSeen = time.Now()` at the top of the read loop. -/
def touchClient (s : ServerState) (conn : Nat) (now : Nat) : ServerState :=
  updateByConn s conn (fun c => { c with lastSeen := now })

/-- The `switch msg.Type` dispatch of the read loop of part_000. -/
def dispatch (fresh : String) (now : Nat) (s : ServerState) (conn : Nat) (msg : Message) :
    ServerState × List Output :=
  if msg.type = "initiate_call" then handleInitiateCall fresh s conn msg
  else if msg.type = "accept_call" then handleAcceptCall s conn msg
  else if msg.type = "offer" then handleOffer s conn msg
  else if msg.type = "reject_call" then handleRejectCall s conn msg
  else if msg.type = "ice-candidate" then handleICECandidate s conn msg
  else if msg.type = "hangup" then handleHangup s conn msg.callID "hangup"
  else if msg.type = "ping" then (s, [Output.send conn { type := "pong" }])
  else if msg.type = "register" then handleRegister s conn
  else if msg.type = "presence_update" then handlePresenceUpdate now s conn msg
  else (s, [Output.send conn { type := "error", data := "Unknown message type" }])

/-- External stimuli of the server: an accepted connection (with its
generated id), an inbound message (with the clock value and the UUID a call
initiation would generate), or a transport teardown. -/
inductive Event where
  | connect (conn : Nat) (id : String)
  | inbound (conn : Nat) (msg : Message) (fresh : String) (now : Nat)
  | disconnect (conn : Nat)

/-- State transition for one event (outputs discarded). -/
def stepState (s : ServerState) : Event → ServerState
  | .connect conn id => (connectClient s conn id).1
  | .inbound conn msg fresh now => (dispatch fresh now (touchClient s conn now) conn msg).1
  | .disconnect conn => (handleDisconnect s conn).1

/-- The empty registries at process start. -/
def initState : ServerState := { clients := [], rooms := [] }

/-- The state reached from process start by a concrete event trace. -/
def runTrace (evs : List Event) : ServerState :=
  evs.foldl stepState initState

/-- The claimed coupling of one client record: `Status == "idle"` exactly
when `CallID == ""`. -/
def statusCallIDCoupled (c : ClientInfo) : Prop :=
  c.status = StatusIdle ↔ c.callID = ""

instance (c : ClientInfo) : Decidable (statusCallIDCoupled c) :=
  inferInstanceAs (Decidable (_ ↔ _))

/-- The coupling, asserted of every registered client. -/
def idleInvariant (s : ServerState) : Prop :=
  ∀ c ∈ s.clients, statusCallIDCoupled c

instance (s : ServerState) : Decidable (idleInvariant s) :=
  inferInstanceAs (Decidable (∀ c ∈ s.clients, statusCallIDCoupled c))

namespace V1

/-- Client record of `src/unnamed/part_001` (statuses idle/calling/in-call,
no `LastSeen`). -/
structure ClientInfo where
  conn : Nat
  id : String
  status : String
  callID : String := ""
  isCaller : Bool := false
deriving DecidableEq

/-- Room of part_001: only the participant connection set, created lazily on
acceptance. -/
structure Room where
  id : String
  participants : List Nat
deriving DecidableEq

/-- Registries of part_001. -/
structure State where
  clients : List ClientInfo
  rooms : List Room
deriving DecidableEq

/-- Lookup `clients[conn]`. -/
def findByConn (s : State) (conn : Nat) : Option ClientInfo :=
  s.clients.find? (fun c => c.conn == conn)

/-- Lookup `rooms[cid]`. -/
def roomsFind (s : State) (cid : String) : Option Room :=
  s.rooms.find? (fun r => r.id == cid)

/-- Mutation through the shared `*ClientInfo` pointer. -/
def updateByConn (s : State) (conn : Nat) (f : ClientInfo → ClientInfo) : State :=
  { s with clients := s.clients.map (fun c => if c.conn == conn then f c else c) }

/-- `func handleAcceptCall` of part_001: refuse with `call_taken` when a room
already exists under the call id; otherwise find the caller flagged
`isCaller` for the id, require it `calling` and the acceptor idle, create
the two-party room, move both to in-call, answer the caller and fan
`call_taken` out to every other client.  (Message reuses the shared wire
structure; part_001 only ever populates its type, callID, data, callerID and
reason fields.) -/
def handleAcceptCall (s : State) (conn : Nat) (msg : Message) : State × List Output :=
  match findByConn s conn with
  | none => (s, [])
  | some callee =>
    if (roomsFind s msg.callID).isSome then
      let taken : Message :=
        { type := "call_taken", callID := msg.callID,
          data := "This call has already been accepted." }
      (s, [Output.send conn taken])
    else
      let unavailable : Message :=
        { type := "error", callID := msg.callID,
          data := "Call not found or caller no longer available." }
      match s.clients.find? (fun c => c.callID == msg.callID && c.isCaller) with
      | none =>
        (s, [Output.send conn unavailable])
      | some caller =>
        if caller.status ≠ "calling" then
          (s, [Output.send conn unavailable])
        else if callee.status ≠ "idle" then
          (s, [Output.send conn
                 { type := "error", callID := msg.callID,
                   data := "Cannot accept call, you are not idle." }])
        else
          let s1 : State :=
            { s with rooms :=
                s.rooms ++ [{ id := msg.callID, participants := [caller.conn, conn] }] }
          let s2 := updateByConn s1 caller.conn (fun c => { c with status := "in-call" })
          let s3 := updateByConn s2 conn (fun c =>
            { c with status := "in-call", callID := msg.callID, isCaller := false })
          (s3, Output.send caller.conn { type := "answer", callID := msg.callID, data := msg.data }
            :: s.clients.filterMap (fun c =>
                 if c.id != caller.id && c.id != callee.id then
                   some (Output.send c.conn { type := "call_taken", callID := msg.callID })
                 else none))

end V1

/-! ## Registry lemmas -/

theorem find_map_if (l : List ClientInfo) (conn conn' : Nat) (f : ClientInfo → ClientInfo)
    (hf : ∀ c, (f c).conn = c.conn) :
    (l.map (fun c => if c.conn == conn then f c else c)).find? (fun c => c.conn == conn') =
      (l.find? (fun c => c.conn == conn')).map
        (fun c => if c.conn == conn then f c else c) := by
  induction l with
  | nil => rfl
  | cons a t ih =>
    have hconn : (if a.conn == conn then f a else a).conn = a.conn := by
      split
      · exact hf a
      · rfl
    simp only [List.map_cons, List.find?_cons, hconn]
    cases h : (a.conn == conn')
    · exact ih
    · rfl

theorem findByConn_updateByConn (s : ServerState) (conn conn' : Nat)
    (f : ClientInfo → ClientInfo) (hf : ∀ c, (f c).conn = c.conn) :
    findByConn (updateByConn s conn f) conn' =
      (findByConn s conn').map (fun c => if c.conn == conn then f c else c) :=
  find_map_if s.clients conn conn' f hf

theorem findByConn_updateByConn_self (s : ServerState) (conn : Nat)
    (f : ClientInfo → ClientInfo) (c : ClientInfo) (hf : ∀ x, (f x).conn = x.conn)
    (h : findByConn s conn = some c) :
    findByConn (updateByConn s conn f) conn = some (f c) := by
  have h' : s.clients.find? (fun x => x.conn == conn) = some c := h
  have hc : (c.conn == conn) = true := by simpa using List.find?_some h'
  rw [findByConn_updateByConn s conn conn f hf, h]
  simp only [Option.map_some']
  rw [if_pos hc]

theorem findByConn_updateByConn_ne (s : ServerState) (conn conn' : Nat)
    (f : ClientInfo → ClientInfo) (hf : ∀ x, (f x).conn = x.conn) (hne : conn' ≠ conn) :
    findByConn (updateByConn s conn f) conn' = findByConn s conn' := by
  rw [findByConn_updateByConn s conn conn' f hf]
  cases h : findByConn s conn' with
  | none => rfl
  | some c =>
    have h' : s.clients.find? (fun x => x.conn == conn') = some c := h
    have hc : (c.conn == conn') = true := by simpa using List.find?_some h'
    have hcc : c.conn = conn' := by simpa [beq_iff_eq] using hc
    simp only [Option.map_some']
    rw [if_neg (by simp [hcc, hne])]

theorem find_filter_self (l : List ClientInfo) (conn : Nat) :
    (l.filter (fun c => !(c.conn == conn))).find? (fun c => c.conn == conn) = none := by
  induction l with
  | nil => rfl
  | cons a t ih =>
    by_cases h : a.conn = conn
    · simpa [List.filter_cons, h] using ih
    · simpa [List.filter_cons, List.find?_cons, h] using ih

theorem find_filter_ne (l : List ClientInfo) (conn conn' : Nat) (h : conn' ≠ conn) :
    (l.filter (fun c => !(c.conn == conn))).find? (fun c => c.conn == conn') =
      l.find? (fun c => c.conn == conn') := by
  induction l with
  | nil => rfl
  | cons a t ih =>
    by_cases ha : a.conn = conn
    · simpa [List.filter_cons, List.find?_cons, ha, Ne.symm h] using ih
    · by_cases ha' : a.conn = conn'
      · simp [List.filter_cons, List.find?_cons, ha, ha', h]
      · simpa [List.filter_cons, List.find?_cons, ha, ha'] using ih

theorem findByConn_removeByConn_self (s : ServerState) (conn : Nat) :
    findByConn (removeByConn s conn) conn = none :=
  find_filter_self s.clients conn

theorem findByConn_removeByConn_ne (s : ServerState) (conn conn' : Nat) (h : conn' ≠ conn) :
    findByConn (removeByConn s conn) conn' = findByConn s conn' :=
  find_filter_ne s.clients conn conn' h

theorem roomsFind_erase_list (l : List Room) (cid : String) :
    (l.filter (fun r => !(r.id == cid))).find? (fun r => r.id == cid) = none := by
  induction l with
  | nil => rfl
  | cons a t ih =>
    by_cases h : a.id = cid
    · simpa [List.filter_cons, h] using ih
    · simpa [List.filter_cons, List.find?_cons, h] using ih

theorem roomsFind_roomsErase_self (s : ServerState) (cid : String) :
    roomsFind (roomsErase s cid) cid = none :=
  roomsFind_erase_list s.rooms cid

theorem roomsFind_roomsInsert_self (s : ServerState) (room : Room) :
    roomsFind (roomsInsert s room) room.id = some room := by
  simp [roomsFind, roomsInsert, List.find?_cons]

theorem filter_rooms_idem (l : List Room) (cid : String) :
    (l.filter (fun r => !(r.id == cid))).filter (fun r => !(r.id == cid)) =
      l.filter (fun r => !(r.id == cid)) := by
  induction l with
  | nil => rfl
  | cons a t ih =>
    by_cases h : a.id = cid
    · simpa [List.filter_cons, h] using ih
    · simpa [List.filter_cons, h] using ih


/-- Projections untouched by registry operations. -/
theorem updateByConn_rooms (s : ServerState) (conn : Nat) (f : ClientInfo → ClientInfo) :
    (updateByConn s conn f).rooms = s.rooms := rfl

theorem removeByConn_rooms (s : ServerState) (conn : Nat) :
    (removeByConn s conn).rooms = s.rooms := rfl

theorem findByConn_roomsErase (s : ServerState) (cid : String) (conn : Nat) :
    findByConn (roomsErase s cid) conn = findByConn s conn := rfl

theorem findByConn_roomsInsert (s : ServerState) (room : Room) (conn : Nat) :
    findByConn (roomsInsert s room) conn = findByConn s conn := rfl

theorem roomsFind_updateByConn (s : ServerState) (conn : Nat) (f : ClientInfo → ClientInfo)
    (cid : String) : roomsFind (updateByConn s conn f) cid = roomsFind s cid := rfl

theorem roomsFind_removeByConn (s : ServerState) (conn : Nat) (cid : String) :
    roomsFind (removeByConn s conn) cid = roomsFind s cid := rfl

/-! ## Claim theorems -/

/-- Claim C7: when `accept_call` arrives for a call id whose room already
exists (a second callee accepting the same call), the accepting client gets
the `call_taken` reply and the handler returns with the state unchanged: no
second or duplicate room is created, the existing room keeps its membership,
and no participant record is modified (the result state is exactly the input
state).  Proved of the variant with the room guard, part_001. -/
theorem acceptCall_taken_guard (s : V1.State) (conn : Nat) (msg : Message)
    (callee : V1.ClientInfo) (r : V1.Room)
    (hc : V1.findByConn s conn = some callee)
    (hr : V1.roomsFind s msg.callID = some r) :
    V1.handleAcceptCall s conn msg =
      (s, [Output.send conn
             { type := "call_taken", callID := msg.callID,
               data := "This call has already been accepted." }]) := by
  simp [V1.handleAcceptCall, hc, hr]

theorem acceptCall_taken_guard_witness :
    V1.handleAcceptCall
        { clients := [{ conn := 1, id := "x", status := "in-call", callID := "c7", isCaller := true },
                      { conn := 2, id := "y", status := "in-call", callID := "c7" },
                      { conn := 3, id := "z", status := "idle" }],
          rooms := [{ id := "c7", participants := [1, 2] }] }
        3 { type := "accept_call", callID := "c7", callerID := "x", data := "sdp" } =
      ({ clients := [{ conn := 1, id := "x", status := "in-call", callID := "c7", isCaller := true },
                     { conn := 2, id := "y", status := "in-call", callID := "c7" },
                     { conn := 3, id := "z", status := "idle" }],
         rooms := [{ id := "c7", participants := [1, 2] }] },
       [Output.send 3 { type := "call_taken", callID := "c7",
                        data := "This call has already been accepted." }]) :=
  acceptCall_taken_guard _ 3 _ { conn := 3, id := "z", status := "idle" }
    { id := "c7", participants := [1, 2] } (by decide) (by decide)

/-- Claim C3: an idle client that sends `initiate_call` while no other
registered client is idle gets back exactly one `error` reply ("No available
peers") and the handler leaves the whole state untouched: the sender stays
idle with its `CallID` as it was, and no room is created. -/
theorem initiateCall_no_idle_peers (fresh : String) (s : ServerState) (conn : Nat)
    (msg : Message) (caller : ClientInfo)
    (h1 : findByConn s conn = some caller)
    (h2 : caller.status = StatusIdle)
    (h3 : ∀ c ∈ s.clients, c.id ≠ caller.id → c.status ≠ StatusIdle) :
    handleInitiateCall fresh s conn msg =
      (s, [Output.send conn { type := "error", data := "No available peers" }]) := by
  have hnone : s.clients.find? (fun c => c.id != caller.id && c.status == StatusIdle) = none := by
    rw [List.find?_eq_none]
    intro c hc
    by_cases hid : c.id = caller.id
    · simp [hid]
    · simp [hid, h3 c hc hid]
  simp [handleInitiateCall, h1, h2, hnone]

theorem initiateCall_no_idle_peers_witness :
    handleInitiateCall "u1"
        { clients := [{ conn := 1, id := "x", status := "idle" },
                      { conn := 2, id := "y", status := "in-call", callID := "c0" }],
          rooms := [] }
        1 { type := "initiate_call", data := "sdp" } =
      ({ clients := [{ conn := 1, id := "x", status := "idle" },
                     { conn := 2, id := "y", status := "in-call", callID := "c0" }],
         rooms := [] },
       [Output.send 1 { type := "error", data := "No available peers" }]) :=
  initiateCall_no_idle_peers "u1" _ 1 { type := "initiate_call", data := "sdp" }
    { conn := 1, id := "x", status := "idle" } (by decide) (by decide) (by decide)

/-- Claim C4: in an established two-party room, an `ice-candidate` message
sent by either participant carrying the room id is forwarded with its `data`
field unchanged to exactly the other participant (the output list is that
single send, so no third client ever receives it); and when no room exists
under the message call id, or the sender occupies neither of the room
connection slots, the handler drops the message silently, replying nothing
and changing nothing. -/
theorem iceCandidate_forwarding :
    (∀ (s : ServerState) (a b : Nat) (msg : Message) (A : ClientInfo) (r : Room),
       findByConn s a = some A → A.callID = msg.callID →
       roomsFind s msg.callID = some r →
       r.callerConn = some a → r.calleeConn = some b →
       handleICECandidate s a msg =
         (s, [Output.send b { type := "ice-candidate", callID := msg.callID,
                              data := msg.data }]))
  ∧ (∀ (s : ServerState) (a b : Nat) (msg : Message) (B : ClientInfo) (r : Room),
       findByConn s b = some B → B.callID = msg.callID →
       roomsFind s msg.callID = some r →
       r.callerConn = some a → r.calleeConn = some b → a ≠ b →
       handleICECandidate s b msg =
         (s, [Output.send a { type := "ice-candidate", callID := msg.callID,
                              data := msg.data }]))
  ∧ (∀ (s : ServerState) (conn : Nat) (msg : Message),
       roomsFind s msg.callID = none → handleICECandidate s conn msg = (s, []))
  ∧ (∀ (s : ServerState) (conn : Nat) (msg : Message) (r : Room),
       roomsFind s msg.callID = some r →
       r.callerConn ≠ some conn → r.calleeConn ≠ some conn →
       handleICECandidate s conn msg = (s, [])) := by
  refine ⟨?_, ?_, ?_, ?_⟩
  · intro s a b msg A r hA hcid hr hca hcb
    simp [handleICECandidate, hA, hcid, hr, hca, hcb]
  · intro s a b msg B r hB hcid hr hca hcb hab
    have hne : ¬ r.callerConn = some b := by rw [hca]; simp [hab]
    simp [handleICECandidate, hB, hcid, hr, hne, hcb, hca, hab]
  · intro s conn msg h
    cases hs : findByConn s conn with
    | none => simp [handleICECandidate, hs]
    | some sender =>
      by_cases hcid : sender.callID = msg.callID
      · simp [handleICECandidate, hs, hcid, h]
      · simp [handleICECandidate, hs, hcid]
  · intro s conn msg r hr h1 h2
    cases hs : findByConn s conn with
    | none => simp [handleICECandidate, hs]
    | some sender =>
      by_cases hcid : sender.callID = msg.callID
      · simp [handleICECandidate, hs, hcid, hr, h1, h2]
      · simp [handleICECandidate, hs, hcid]

theorem iceCandidate_forwarding_witness :
    handleICECandidate
        { clients := [{ conn := 1, id := "x", status := "in-call", callID := "c4", isCaller := true },
                      { conn := 2, id := "y", status := "in-call", callID := "c4" }],
          rooms := [{ id := "c4", participants := [1, 2],
                      callerConn := some 1, calleeConn := some 2 }] }
        1 { type := "ice-candidate", callID := "c4", data := "cand-1" } =
      ({ clients := [{ conn := 1, id := "x", status := "in-call", callID := "c4", isCaller := true },
                     { conn := 2, id := "y", status := "in-call", callID := "c4" }],
         rooms := [{ id := "c4", participants := [1, 2],
                     callerConn := some 1, calleeConn := some 2 }] },
       [Output.send 2 { type := "ice-candidate", callID := "c4", data := "cand-1" }]) :=
  iceCandidate_forwarding.1 _ 1 2 { type := "ice-candidate", callID := "c4", data := "cand-1" }
    { conn := 1, id := "x", status := "in-call", callID := "c4", isCaller := true }
    { id := "c4", participants := [1, 2], callerConn := some 1, calleeConn := some 2 }
    (by decide) (by decide) (by decide) (by decide) (by decide)


/-- Claim C2: when an idle client sends `initiate_call` and the registry scan
finds another idle client, the handler determines the call id (the fresh
UUID when the message carries none, otherwise the message's own call id),
moves the sender to `calling` with `IsCaller` set and that call id, moves
the matched target to `ringing` with the same call id, and its first output
is the message to the target carrying the unchanged offer payload together
with the sender's identifier. -/
theorem initiateCall_matches_idle_peer (fresh : String) (s : ServerState) (conn : Nat)
    (msg : Message) (caller callee : ClientInfo) (cid : String)
    (h1 : findByConn s conn = some caller)
    (h2 : caller.status = StatusIdle)
    (h3 : s.clients.find? (fun c => c.id != caller.id && c.status == StatusIdle) = some callee)
    (h4 : findByConn s callee.conn = some callee)
    (h5 : callee.conn ≠ conn)
    (hcid : cid = if msg.callID = "" then fresh else msg.callID) :
    findByConn (handleInitiateCall fresh s conn msg).1 conn =
        some { caller with status := StatusCalling, callID := cid, isCaller := true }
  ∧ findByConn (handleInitiateCall fresh s conn msg).1 callee.conn =
        some { callee with status := StatusRinging, callID := cid, isCaller := false }
  ∧ (handleInitiateCall fresh s conn msg).2 =
        Output.send callee.conn
            { type := "offer", callID := cid, data := msg.data, callerID := caller.id }
          :: broadcastPeerList (handleInitiateCall fresh s conn msg).1 := by
  have hcallee : (callee.id != caller.id && callee.status == StatusIdle) = true := by
    simpa using List.find?_some h3
  have hcs : callee.status = StatusIdle := by
    simp only [Bool.and_eq_true, beq_iff_eq] at hcallee
    exact hcallee.2
  have hres : handleInitiateCall fresh s conn msg =
      (updateByConn
        (updateByConn
          (roomsInsert s { id := cid, participants := [conn],
                           callerConn := some conn, calleeConn := none })
          conn (fun c => { c with status := StatusCalling, callID := cid, isCaller := true }))
        callee.conn (fun c => { c with status := StatusRinging, callID := cid, isCaller := false }),
       Output.send callee.conn
           { type := "offer", callID := cid, data := msg.data, callerID := caller.id }
         :: broadcastPeerList
             (updateByConn
               (updateByConn
                 (roomsInsert s { id := cid, participants := [conn],
                                  callerConn := some conn, calleeConn := none })
                 conn (fun c => { c with status := StatusCalling, callID := cid, isCaller := true }))
               callee.conn
               (fun c => { c with status := StatusRinging, callID := cid, isCaller := false }))) := by
    rw [hcid]
    simp [handleInitiateCall, h1, h2, h3, hcs]
  rw [hres]
  dsimp only
  refine ⟨?_, ?_, rfl⟩
  · rw [findByConn_updateByConn_ne _ callee.conn conn
          (fun c => { c with status := StatusRinging, callID := cid, isCaller := false })
          (fun x => rfl) (Ne.symm h5),
        findByConn_updateByConn_self _ conn
          (fun c => { c with status := StatusCalling, callID := cid, isCaller := true })
          caller (fun x => rfl) (by rw [findByConn_roomsInsert]; exact h1)]
  · exact findByConn_updateByConn_self _ callee.conn
      (fun c => { c with status := StatusRinging, callID := cid, isCaller := false })
      callee (fun x => rfl)
      (by rw [findByConn_updateByConn_ne _ conn callee.conn
                (fun c => { c with status := StatusCalling, callID := cid, isCaller := true })
                (fun x => rfl) h5,
              findByConn_roomsInsert]
          exact h4)

theorem initiateCall_matches_idle_peer_witness :
    findByConn (handleInitiateCall "u2"
        { clients := [{ conn := 1, id := "x", status := "idle" },
                      { conn := 2, id := "y", status := "idle" }], rooms := [] }
        1 { type := "initiate_call", data := "sdp-offer" }).1 2 =
      some { conn := 2, id := "y", status := "ringing", callID := "u2", isCaller := false } :=
  (initiateCall_matches_idle_peer "u2"
      { clients := [{ conn := 1, id := "x", status := "idle" },
                    { conn := 2, id := "y", status := "idle" }], rooms := [] }
      1 { type := "initiate_call", data := "sdp-offer" }
      { conn := 1, id := "x", status := "idle" } { conn := 2, id := "y", status := "idle" }
      "u2" (by decide) (by decide) (by decide) (by decide) (by decide) (by decide)).2.1

/-- Claim C9 counterexample: a client that supplies its own call id in
`initiate_call` gets the room stored under exactly that client-chosen key,
not under the server-generated UUID (here "server-uuid-1"), refuting that
every room key is produced by the server independently of the inbound
message. -/
theorem room_key_client_supplied_example :
    (runTrace
        [Event.connect 1 "x", Event.connect 2 "y",
         Event.inbound 1 { type := "initiate_call", callID := "attacker-id", data := "o" }
           "server-uuid-1" 0]).rooms.map (fun r => r.id) = ["attacker-id"] := by
  decide

/-- Claim C9 as amended: a room created by `initiate_call` is keyed by the
call id carried in the inbound message whenever that field is non-empty; the
server generates a fresh UUID as the key only when the client supplied no
call id. -/
theorem room_key_from_message (fresh : String) (s : ServerState) (conn : Nat)
    (msg : Message) (caller callee : ClientInfo) (cid : String)
    (h1 : findByConn s conn = some caller)
    (h2 : caller.status = StatusIdle)
    (h3 : s.clients.find? (fun c => c.id != caller.id && c.status == StatusIdle) = some callee)
    (hcid : cid = if msg.callID = "" then fresh else msg.callID) :
    roomsFind (handleInitiateCall fresh s conn msg).1 cid =
      some { id := cid, participants := [conn], callerConn := some conn, calleeConn := none } := by
  have hcallee : (callee.id != caller.id && callee.status == StatusIdle) = true := by
    simpa using List.find?_some h3
  have hcs : callee.status = StatusIdle := by
    simp only [Bool.and_eq_true, beq_iff_eq] at hcallee
    exact hcallee.2
  have hres : (handleInitiateCall fresh s conn msg).1 =
      updateByConn
        (updateByConn
          (roomsInsert s { id := cid, participants := [conn],
                           callerConn := some conn, calleeConn := none })
          conn (fun c => { c with status := StatusCalling, callID := cid, isCaller := true }))
        callee.conn (fun c => { c with status := StatusRinging, callID := cid, isCaller := false }) := by
    rw [hcid]
    simp [handleInitiateCall, h1, h2, h3, hcs]
  rw [hres, roomsFind_updateByConn, roomsFind_updateByConn]
  exact roomsFind_roomsInsert_self s
    { id := cid, participants := [conn], callerConn := some conn, calleeConn := none }

theorem room_key_from_message_witness :
    roomsFind (handleInitiateCall "server-uuid-2"
        { clients := [{ conn := 1, id := "x", status := "idle" },
                      { conn := 2, id := "y", status := "idle" }], rooms := [] }
        1 { type := "initiate_call", callID := "client-key", data := "o" }).1 "client-key" =
      some { id := "client-key", participants := [1], callerConn := some 1,
             calleeConn := none } :=
  room_key_from_message "server-uuid-2"
    { clients := [{ conn := 1, id := "x", status := "idle" },
                  { conn := 2, id := "y", status := "idle" }], rooms := [] }
    1 { type := "initiate_call", callID := "client-key", data := "o" }
    { conn := 1, id := "x", status := "idle" } { conn := 2, id := "y", status := "idle" }
    "client-key" (by decide) (by decide) (by decide) (by decide)


/-- Claim C5 counterexample: X and Y connect, X initiates (the room for the
call id is created eagerly, holding the caller), Y rejects.  After the
rejection both parties are idle again, yet the room for the call id is still
present in the room registry — refuting that no room for the call id exists
at any point of the call attempt. -/
theorem reject_leaves_room_example :
    (roomsFind (runTrace
        [Event.connect 1 "x", Event.connect 2 "y",
         Event.inbound 1 { type := "initiate_call", data := "offer-sdp" } "cid" 0,
         Event.inbound 2 { type := "reject_call", callID := "cid", reason := "busy" } "" 1])
        "cid").isSome = true
  ∧ (findByConn (runTrace
        [Event.connect 1 "x", Event.connect 2 "y",
         Event.inbound 1 { type := "initiate_call", data := "offer-sdp" } "cid" 0,
         Event.inbound 2 { type := "reject_call", callID := "cid", reason := "busy" } "" 1])
        1).map (fun c => (c.status, c.callID)) = some (StatusIdle, "") := by
  decide

/-- Claim C5 as amended: when a ringing callee sends `reject_call` for its
call id, the initiator (the client flagged `IsCaller` for that id) receives
`call_rejected` carrying the supplied reason and both parties are reset to
idle with empty `CallID`; however the room registry is left untouched by the
rejection, so the room that `initiate_call` eagerly created under the call
id is still registered afterwards. -/
theorem rejectCall_resets_and_notifies (s : ServerState) (conn : Nat) (msg : Message)
    (caller sender : ClientInfo)
    (hfind : s.clients.find? (fun c => c.callID == msg.callID && c.isCaller) = some caller)
    (hs : findByConn s conn = some sender)
    (hsc : findByConn s caller.conn = some caller)
    (hne : caller.conn ≠ conn)
    (hring : sender.status = StatusRinging)
    (hscid : sender.callID = msg.callID) :
    (handleRejectCall s conn msg).1.rooms = s.rooms
  ∧ findByConn (handleRejectCall s conn msg).1 caller.conn = some (resetClientState caller)
  ∧ findByConn (handleRejectCall s conn msg).1 conn = some (resetClientState sender)
  ∧ (handleRejectCall s conn msg).2 =
      Output.send caller.conn
          { type := "call_rejected", callID := msg.callID, reason := msg.reason }
        :: broadcastPeerList (handleRejectCall s conn msg).1 := by
  have hres : handleRejectCall s conn msg =
      (updateByConn (updateByConn s caller.conn resetClientState) conn resetClientState,
       Output.send caller.conn
           { type := "call_rejected", callID := msg.callID, reason := msg.reason }
         :: broadcastPeerList
             (updateByConn (updateByConn s caller.conn resetClientState) conn
               resetClientState)) := by
    simp [handleRejectCall, hfind]
  rw [hres]
  dsimp only
  refine ⟨rfl, ?_, ?_, rfl⟩
  · rw [findByConn_updateByConn_ne _ conn caller.conn resetClientState (fun x => rfl) hne]
    exact findByConn_updateByConn_self _ caller.conn resetClientState caller
      (fun x => rfl) hsc
  · exact findByConn_updateByConn_self _ conn resetClientState sender (fun x => rfl)
      (by rw [findByConn_updateByConn_ne _ caller.conn conn resetClientState
                (fun x => rfl) (Ne.symm hne)]
          exact hs)

theorem rejectCall_resets_and_notifies_witness :
    findByConn (handleRejectCall
        { clients := [{ conn := 1, id := "x", status := "calling", callID := "c5",
                        isCaller := true },
                      { conn := 2, id := "y", status := "ringing", callID := "c5" }],
          rooms := [{ id := "c5", participants := [1], callerConn := some 1 }] }
        2 { type := "reject_call", callID := "c5", reason := "busy" }).1 1 =
      some (resetClientState
        { conn := 1, id := "x", status := "calling", callID := "c5", isCaller := true }) :=
  (rejectCall_resets_and_notifies
      { clients := [{ conn := 1, id := "x", status := "calling", callID := "c5",
                      isCaller := true },
                    { conn := 2, id := "y", status := "ringing", callID := "c5" }],
        rooms := [{ id := "c5", participants := [1], callerConn := some 1 }] }
      2 { type := "reject_call", callID := "c5", reason := "busy" }
      { conn := 1, id := "x", status := "calling", callID := "c5", isCaller := true }
      { conn := 2, id := "y", status := "ringing", callID := "c5" }
      (by decide) (by decide) (by decide) (by decide) (by decide) (by decide)).2.1

/-- Claim C10 counterexample: X and Y are in an established room for "cid";
the idle third client Z sends `hangup` naming "cid".  The room is deleted,
but the room's callee participant Y is left in state in-call with
`CallID = "cid"` — refuting that such a hangup resets the room's recorded
participants. -/
theorem thirdParty_hangup_callee_not_reset :
    roomsFind (runTrace
        [Event.connect 1 "x", Event.connect 2 "y", Event.connect 3 "z",
         Event.inbound 1 { type := "initiate_call", data := "o" } "cid" 0,
         Event.inbound 2 { type := "accept_call", callID := "cid", callerID := "x",
                           data := "a" } "" 1,
         Event.inbound 3 { type := "hangup", callID := "cid" } "" 2]) "cid" = none
  ∧ (findByConn (runTrace
        [Event.connect 1 "x", Event.connect 2 "y", Event.connect 3 "z",
         Event.inbound 1 { type := "initiate_call", data := "o" } "cid" 0,
         Event.inbound 2 { type := "accept_call", callID := "cid", callerID := "x",
                           data := "a" } "" 1,
         Event.inbound 3 { type := "hangup", callID := "cid" } "" 2])
        2).map (fun c => (c.status, c.callID)) = some (StatusInCall, "cid") := by
  decide

/-- Claim C10 as amended: `handleHangup` acts on the call id named in the
message without checking that the sender participates in that room.  When a
room exists for the id and the sender occupies neither connection slot, the
room is still deleted; the handler treats the room's caller slot as the
"other" party, so the caller is notified with `peer_disconnected` and reset,
while the callee participant's record is left completely unchanged. -/
theorem hangup_no_participation_check (s : ServerState) (conn : Nat) (cid reason : String)
    (r : Room) (a b : Nat) (A : ClientInfo)
    (hr : roomsFind s cid = some r)
    (hca : r.callerConn = some a) (hcb : r.calleeConn = some b)
    (hna : conn ≠ a) (hnb : conn ≠ b) (hba : b ≠ a)
    (hA : findByConn s a = some A) :
    roomsFind (handleHangup s conn cid reason).1 cid = none
  ∧ findByConn (handleHangup s conn cid reason).1 a = some (resetClientState A)
  ∧ findByConn (handleHangup s conn cid reason).1 b = findByConn s b
  ∧ (handleHangup s conn cid reason).2 =
      Output.send a { type := "peer_disconnected", callID := cid, reason := reason }
        :: broadcastPeerList (handleHangup s conn cid reason).1 := by
  have hres : handleHangup s conn cid reason =
      (updateByConn (updateByConn (roomsErase s cid) a resetClientState) conn
         resetClientState,
       Output.send a { type := "peer_disconnected", callID := cid, reason := reason }
         :: broadcastPeerList
             (updateByConn (updateByConn (roomsErase s cid) a resetClientState) conn
                resetClientState)) := by
    simp [handleHangup, hr, hca, Ne.symm hna]
  rw [hres]
  dsimp only
  refine ⟨?_, ?_, ?_, rfl⟩
  · rw [roomsFind_updateByConn, roomsFind_updateByConn]
    exact roomsFind_roomsErase_self s cid
  · rw [findByConn_updateByConn_ne _ conn a resetClientState (fun x => rfl)
          (Ne.symm hna)]
    exact findByConn_updateByConn_self _ a resetClientState A (fun x => rfl)
      (by rw [findByConn_roomsErase]; exact hA)
  · rw [findByConn_updateByConn_ne _ conn b resetClientState (fun x => rfl)
          (Ne.symm hnb),
        findByConn_updateByConn_ne _ a b resetClientState (fun x => rfl) hba]
    exact findByConn_roomsErase s cid b

theorem hangup_no_participation_check_witness :
    roomsFind (handleHangup
        { clients := [{ conn := 1, id := "x", status := "in-call", callID := "ck",
                        isCaller := true },
                      { conn := 2, id := "y", status := "in-call", callID := "ck" },
                      { conn := 3, id := "z", status := "idle" }],
          rooms := [{ id := "ck", participants := [1, 2], callerConn := some 1,
                      calleeConn := some 2 }] }
        3 "ck" "hangup").1 "ck" = none :=
  (hangup_no_participation_check
      { clients := [{ conn := 1, id := "x", status := "in-call", callID := "ck",
                      isCaller := true },
                    { conn := 2, id := "y", status := "in-call", callID := "ck" },
                    { conn := 3, id := "z", status := "idle" }],
        rooms := [{ id := "ck", participants := [1, 2], callerConn := some 1,
                    calleeConn := some 2 }] }
      3 "ck" "hangup"
      { id := "ck", participants := [1, 2], callerConn := some 1, calleeConn := some 2 }
      1 2 { conn := 1, id := "x", status := "in-call", callID := "ck", isCaller := true }
      (by decide) (by decide) (by decide) (by decide) (by decide) (by decide)
      (by decide)).1


/-- Shape of `handleHangup` when a room exists and yields an other party. -/
theorem handleHangup_room_other (s : ServerState) (conn : Nat) (cid reason : String)
    (r : Room) (oc : Nat)
    (hr : roomsFind s cid = some r)
    (hoc : (if r.callerConn = some conn then r.calleeConn else r.callerConn) = some oc) :
    handleHangup s conn cid reason =
      (updateByConn (updateByConn (roomsErase s cid) oc resetClientState) conn
         resetClientState,
       Output.send oc { type := "peer_disconnected", callID := cid, reason := reason }
         :: broadcastPeerList
             (updateByConn (updateByConn (roomsErase s cid) oc resetClientState) conn
                resetClientState)) := by
  simp [handleHangup, hr, hoc]

/-- Shape of `handleHangup` when no room exists under the call id. -/
theorem handleHangup_no_room (s : ServerState) (conn : Nat) (cid reason : String)
    (h : roomsFind s cid = none) :
    handleHangup s conn cid reason =
      (updateByConn (roomsErase s cid) conn resetClientState,
       broadcastPeerList (updateByConn (roomsErase s cid) conn resetClientState)) := by
  simp [handleHangup, h]

/-- The post-state of `handleHangup`, unreduced. -/
theorem handleHangup_fst_shape (s : ServerState) (conn : Nat) (cid reason : String) :
    (handleHangup s conn cid reason).1 =
      updateByConn
        (match (match roomsFind s cid with
                | some room =>
                  if room.callerConn = some conn then room.calleeConn else room.callerConn
                | none => none) with
         | some oc => updateByConn (roomsErase s cid) oc resetClientState
         | none => roomsErase s cid) conn resetClientState := rfl

/-- `handleHangup` always leaves the room registry as the erase of the named
call id. -/
theorem handleHangup_rooms (s : ServerState) (conn : Nat) (cid reason : String) :
    (handleHangup s conn cid reason).1.rooms =
      s.rooms.filter (fun r => !(r.id == cid)) := by
  rw [handleHangup_fst_shape, updateByConn_rooms]
  cases hro : roomsFind s cid with
  | none => rfl
  | some room =>
    dsimp only
    cases hif : (if room.callerConn = some conn then room.calleeConn
                 else room.callerConn) with
    | none => rfl
    | some oc => rfl

theorem update_list_reset_idem (l : List ClientInfo) (conn : Nat) :
    (l.map (fun c => if c.conn == conn then resetClientState c else c)).map
        (fun c => if c.conn == conn then resetClientState c else c) =
      l.map (fun c => if c.conn == conn then resetClientState c else c) := by
  induction l with
  | nil => rfl
  | cons a t ih =>
    simp only [List.map_cons, ih]
    congr 1
    by_cases h : a.conn = conn
    · simp [h, resetClientState]
    · simp [h]

theorem updateByConn_reset_idem (s : ServerState) (conn : Nat) :
    updateByConn (updateByConn s conn resetClientState) conn resetClientState =
      updateByConn s conn resetClientState := by
  unfold updateByConn
  dsimp only
  rw [update_list_reset_idem]

/-- Claim C8: when the teardown path runs for a connection whose client is in
one of the three call states and whose room has another party, the teardown
first performs the hangup handling with the client's own connection as
sender — the other participant is notified with `peer_disconnected` and is
reset to idle, and the room is removed — and then the disconnected client is
removed from the registry, the transport close is emitted, and a final
presence broadcast follows. -/
theorem disconnect_teardown_in_call (s : ServerState) (conn : Nat) (c other : ClientInfo)
    (r : Room) (oc : Nat)
    (h1 : findByConn s conn = some c)
    (hst : c.status = StatusInCall ∨ c.status = StatusCalling ∨ c.status = StatusRinging)
    (hr : roomsFind s c.callID = some r)
    (hoc : (if r.callerConn = some conn then r.calleeConn else r.callerConn) = some oc)
    (hocne : oc ≠ conn)
    (h2 : findByConn s oc = some other) :
    findByConn (handleDisconnect s conn).1 conn = none
  ∧ findByConn (handleDisconnect s conn).1 oc = some (resetClientState other)
  ∧ roomsFind (handleDisconnect s conn).1 c.callID = none
  ∧ (handleDisconnect s conn).2 =
      Output.send oc { type := "peer_disconnected", callID := c.callID,
                       reason := "disconnected" }
        :: (broadcastPeerList (handleHangup s conn c.callID "disconnected").1
            ++ Output.closeConn conn
               :: broadcastPeerList (handleDisconnect s conn).1) := by
  have hhang := handleHangup_room_other s conn c.callID "disconnected" r oc hr hoc
  have hres : handleDisconnect s conn =
      (removeByConn
         (updateByConn (updateByConn (roomsErase s c.callID) oc resetClientState) conn
            resetClientState) conn,
       (Output.send oc { type := "peer_disconnected", callID := c.callID,
                         reason := "disconnected" }
          :: broadcastPeerList
               (updateByConn (updateByConn (roomsErase s c.callID) oc resetClientState)
                  conn resetClientState))
         ++ Output.closeConn conn
            :: broadcastPeerList
                 (removeByConn
                    (updateByConn
                       (updateByConn (roomsErase s c.callID) oc resetClientState) conn
                       resetClientState) conn)) := by
    simp only [handleDisconnect, h1, if_pos hst, hhang]
  rw [hres, hhang]
  dsimp only
  refine ⟨?_, ?_, ?_, ?_⟩
  · exact findByConn_removeByConn_self _ conn
  · rw [findByConn_removeByConn_ne _ conn oc hocne,
        findByConn_updateByConn_ne _ conn oc resetClientState (fun x => rfl) hocne]
    exact findByConn_updateByConn_self _ oc resetClientState other (fun x => rfl)
      (by rw [findByConn_roomsErase]; exact h2)
  · rw [roomsFind_removeByConn, roomsFind_updateByConn, roomsFind_updateByConn]
    exact roomsFind_roomsErase_self s c.callID
  · simp

theorem disconnect_teardown_in_call_witness :
    findByConn (handleDisconnect
        { clients := [{ conn := 1, id := "x", status := "in-call", callID := "c8",
                        isCaller := true },
                      { conn := 2, id := "y", status := "in-call", callID := "c8" }],
          rooms := [{ id := "c8", participants := [1, 2], callerConn := some 1,
                      calleeConn := some 2 }] } 1).1 2 =
      some (resetClientState { conn := 2, id := "y", status := "in-call", callID := "c8" }) :=
  (disconnect_teardown_in_call
      { clients := [{ conn := 1, id := "x", status := "in-call", callID := "c8",
                      isCaller := true },
                    { conn := 2, id := "y", status := "in-call", callID := "c8" }],
        rooms := [{ id := "c8", participants := [1, 2], callerConn := some 1,
                    calleeConn := some 2 }] } 1
      { conn := 1, id := "x", status := "in-call", callID := "c8", isCaller := true }
      { conn := 2, id := "y", status := "in-call", callID := "c8" }
      { id := "c8", participants := [1, 2], callerConn := some 1, calleeConn := some 2 }
      2 (by decide) (by decide) (by decide) (by decide) (by decide) (by decide)).2.1

/-- Claim C6 counterexample: with X and Y in an established room for "cid"
and Z idle with empty `CallID`, Z's `hangup` naming "cid" deletes the room
— a hangup from an already-idle client does change the registries, refuting
that it leaves them unchanged. -/
theorem idle_hangup_not_noop_example :
    (findByConn (runTrace
        [Event.connect 1 "x", Event.connect 2 "y", Event.connect 3 "z",
         Event.inbound 1 { type := "initiate_call", data := "o" } "cid" 0,
         Event.inbound 2 { type := "accept_call", callID := "cid", callerID := "x",
                           data := "a" } "" 1])
        3).map (fun c => (c.status, c.callID)) = some (StatusIdle, "")
  ∧ (roomsFind (runTrace
        [Event.connect 1 "x", Event.connect 2 "y", Event.connect 3 "z",
         Event.inbound 1 { type := "initiate_call", data := "o" } "cid" 0,
         Event.inbound 2 { type := "accept_call", callID := "cid", callerID := "x",
                           data := "a" } "" 1]) "cid").isSome = true
  ∧ roomsFind (stepState (runTrace
        [Event.connect 1 "x", Event.connect 2 "y", Event.connect 3 "z",
         Event.inbound 1 { type := "initiate_call", data := "o" } "cid" 0,
         Event.inbound 2 { type := "accept_call", callID := "cid", callerID := "x",
                           data := "a" } "" 1])
        (Event.inbound 3 { type := "hangup", callID := "cid" } "" 2)) "cid" = none := by
  decide

/-- Claim C6 as amended: a second `hangup` from the same sender for the same
call id is a no-op — it leaves the whole state (both registries and every
client record) exactly as the first hangup left it, deletes no room and
sends no `peer_disconnected`, its only output being the presence broadcast.
So the room deletion and the peer notification happen at most once. -/
theorem hangup_second_noop (s : ServerState) (conn : Nat) (cid reason reason2 : String) :
    (handleHangup (handleHangup s conn cid reason).1 conn cid reason2).1 =
        (handleHangup s conn cid reason).1
  ∧ (handleHangup (handleHangup s conn cid reason).1 conn cid reason2).2 =
        broadcastPeerList (handleHangup s conn cid reason).1 := by
  have hrooms : (handleHangup s conn cid reason).1.rooms =
      s.rooms.filter (fun r => !(r.id == cid)) := handleHangup_rooms s conn cid reason
  have ha : roomsFind (handleHangup s conn cid reason).1 cid = none := by
    unfold roomsFind
    rw [hrooms]
    exact roomsFind_erase_list s.rooms cid
  have hc : roomsErase (handleHangup s conn cid reason).1 cid =
      (handleHangup s conn cid reason).1 := by
    unfold roomsErase
    rw [hrooms, filter_rooms_idem, ← hrooms]
  have hb : updateByConn (handleHangup s conn cid reason).1 conn resetClientState =
      (handleHangup s conn cid reason).1 := by
    rw [handleHangup_fst_shape]
    exact updateByConn_reset_idem _ conn
  have h2 := handleHangup_no_room (handleHangup s conn cid reason).1 conn cid reason2 ha
  rw [hc, hb] at h2
  rw [h2]
  exact ⟨rfl, rfl⟩


/-! ## The idle/CallID coupling -/

theorem coupled_reset (c : ClientInfo) : statusCallIDCoupled (resetClientState c) := by
  simp [statusCallIDCoupled, resetClientState]

theorem idleInvariant_updateByConn_of (s : ServerState) (conn : Nat)
    (f : ClientInfo → ClientInfo) (hf : ∀ c, statusCallIDCoupled (f c))
    (h : idleInvariant s) : idleInvariant (updateByConn s conn f) := by
  intro c hc
  unfold updateByConn at hc
  simp only [List.mem_map] at hc
  obtain ⟨a, ha, rfl⟩ := hc
  split
  · exact hf a
  · exact h a ha

theorem idleInvariant_init : idleInvariant initState := by
  intro c hc
  simp [initState] at hc

theorem idleInvariant_connect (s : ServerState) (conn : Nat) (id : String)
    (h : idleInvariant s) : idleInvariant (connectClient s conn id).1 := by
  intro c hc
  simp only [connectClient, List.mem_append, List.mem_singleton] at hc
  rcases hc with hc | rfl
  · exact h c hc
  · simp [statusCallIDCoupled, StatusIdle]

theorem idleInvariant_initiateCall (fresh : String) (s : ServerState) (conn : Nat)
    (msg : Message) (hfresh : fresh ≠ "") (h : idleInvariant s) :
    idleInvariant (handleInitiateCall fresh s conn msg).1 := by
  have hcid : (if msg.callID = "" then fresh else msg.callID) ≠ "" := by
    split
    · exact hfresh
    · assumption
  cases hfind : findByConn s conn with
  | none =>
    have hid : (handleInitiateCall fresh s conn msg).1 = s := by
      simp [handleInitiateCall, hfind]
    rw [hid]; exact h
  | some caller =>
    by_cases hst : caller.status = StatusIdle
    · cases hsc : s.clients.find? (fun c => c.id != caller.id && c.status == StatusIdle) with
      | none =>
        have hid : (handleInitiateCall fresh s conn msg).1 = s := by
          simp [handleInitiateCall, hfind, hst, hsc]
        rw [hid]; exact h
      | some callee =>
        by_cases hcs : callee.status = StatusIdle
        · have hres : (handleInitiateCall fresh s conn msg).1 =
              updateByConn
                (updateByConn
                  (roomsInsert s
                    { id := if msg.callID = "" then fresh else msg.callID,
                      participants := [conn], callerConn := some conn,
                      calleeConn := none })
                  conn (fun c =>
                    { c with status := StatusCalling,
                             callID := if msg.callID = "" then fresh else msg.callID,
                             isCaller := true }))
                callee.conn (fun c =>
                  { c with status := StatusRinging,
                           callID := if msg.callID = "" then fresh else msg.callID,
                           isCaller := false }) := by
            simp [handleInitiateCall, hfind, hst, hsc, hcs]
          rw [hres]
          apply idleInvariant_updateByConn_of
          · intro c
            simp [statusCallIDCoupled, StatusRinging, StatusIdle, hcid]
          · apply idleInvariant_updateByConn_of
            · intro c
              simp [statusCallIDCoupled, StatusCalling, StatusIdle, hcid]
            · exact h
        · have hid : (handleInitiateCall fresh s conn msg).1 = s := by
            simp [handleInitiateCall, hfind, hst, hsc, hcs]
          rw [hid]; exact h
    · have hid : (handleInitiateCall fresh s conn msg).1 = s := by
        simp [handleInitiateCall, hfind, hst]
      rw [hid]; exact h

theorem idleInvariant_rejectCall (s : ServerState) (conn : Nat) (msg : Message)
    (h : idleInvariant s) : idleInvariant (handleRejectCall s conn msg).1 := by
  unfold handleRejectCall
  cases hf : s.clients.find? (fun c => c.callID == msg.callID && c.isCaller) with
  | some caller =>
    dsimp only
    exact idleInvariant_updateByConn_of _ _ _ coupled_reset
      (idleInvariant_updateByConn_of _ _ _ coupled_reset h)
  | none =>
    dsimp only
    exact idleInvariant_updateByConn_of _ _ _ coupled_reset h

theorem idleInvariant_hangup (s : ServerState) (conn : Nat) (cid reason : String)
    (h : idleInvariant s) : idleInvariant (handleHangup s conn cid reason).1 := by
  rw [handleHangup_fst_shape]
  apply idleInvariant_updateByConn_of _ _ _ coupled_reset
  cases hro : roomsFind s cid with
  | none => exact h
  | some room =>
    dsimp only
    cases hif : (if room.callerConn = some conn then room.calleeConn
                 else room.callerConn) with
    | none => exact h
    | some oc => exact idleInvariant_updateByConn_of _ _ _ coupled_reset h

theorem handleICECandidate_fst (s : ServerState) (conn : Nat) (msg : Message) :
    (handleICECandidate s conn msg).1 = s := by
  cases hs : findByConn s conn with
  | none => simp [handleICECandidate, hs]
  | some sender =>
    by_cases hcid : sender.callID = msg.callID
    · cases hr : roomsFind s msg.callID with
      | none => simp [handleICECandidate, hs, hcid, hr]
      | some room =>
        by_cases h1 : room.callerConn = some conn
        · cases hc : room.calleeConn with
          | none => simp [handleICECandidate, hs, hcid, hr, h1, hc]
          | some b => simp [handleICECandidate, hs, hcid, hr, h1, hc]
        · by_cases h2 : room.calleeConn = some conn
          · cases hc : room.callerConn with
            | none => simp [handleICECandidate, hs, hcid, hr, h1, h2, hc]
            | some a =>
              simp [handleICECandidate, hs, hcid, hr, h1, h2, hc]
              by_cases hac : a = conn
              · simp [hac]
              · simp [hac]
          · simp [handleICECandidate, hs, hcid, hr, h1, h2]
    · simp [handleICECandidate, hs, hcid]

theorem handleOffer_fst (s : ServerState) (conn : Nat) (msg : Message) :
    (handleOffer s conn msg).1 = s := by
  cases hr : roomsFind s msg.callID with
  | none => simp [handleOffer, hr]
  | some room =>
    by_cases h1 : room.callerConn = some conn
    · cases hc : room.calleeConn with
      | none => simp [handleOffer, hr, h1, hc]
      | some b => simp [handleOffer, hr, h1, hc]
    · cases hc : room.callerConn with
      | none => simp [handleOffer, hr, h1, hc]
      | some a =>
        simp [handleOffer, hr, h1, hc]
        by_cases hac : a = conn
        · cases hcc : room.calleeConn <;> simp [hac, hcc]
        · simp [hac]

theorem idleInvariant_removeByConn (s : ServerState) (conn : Nat)
    (h : idleInvariant s) : idleInvariant (removeByConn s conn) := by
  intro c hc
  exact h c (List.mem_of_mem_filter hc)

theorem idleInvariant_disconnect (s : ServerState) (conn : Nat)
    (h : idleInvariant s) : idleInvariant (handleDisconnect s conn).1 := by
  unfold handleDisconnect
  cases hfind : findByConn s conn with
  | none => exact h
  | some c =>
    dsimp only
    apply idleInvariant_removeByConn
    split
    · exact idleInvariant_hangup _ _ _ _ h
    · exact h

/-- Claim C1, amended: the coupling "status is idle iff CallID is empty"
holds in the initial state, is established for each client at connection
accept, and is preserved by handleInitiateCall (whenever the generated UUID
is non-empty, which a UUID always is), handleRejectCall, handleHangup, the
disconnect teardown, and the state-preserving handleICECandidate and
handleOffer.  It is NOT an invariant of the full system: handlePresenceUpdate
overwrites the status with a client-supplied string without touching CallID
(see the counterexample), and handleRegister and handleAcceptCall can likewise
break the coupling by setting a status without adjusting CallID. -/
theorem idle_coupling_preservation :
    idleInvariant initState
  ∧ (∀ (s : ServerState) (conn : Nat) (id : String),
       idleInvariant s → idleInvariant (connectClient s conn id).1)
  ∧ (∀ (fresh : String) (s : ServerState) (conn : Nat) (msg : Message),
       fresh ≠ "" → idleInvariant s → idleInvariant (handleInitiateCall fresh s conn msg).1)
  ∧ (∀ (s : ServerState) (conn : Nat) (msg : Message),
       idleInvariant s → idleInvariant (handleRejectCall s conn msg).1)
  ∧ (∀ (s : ServerState) (conn : Nat) (cid reason : String),
       idleInvariant s → idleInvariant (handleHangup s conn cid reason).1)
  ∧ (∀ (s : ServerState) (conn : Nat) (msg : Message), (handleICECandidate s conn msg).1 = s)
  ∧ (∀ (s : ServerState) (conn : Nat) (msg : Message), (handleOffer s conn msg).1 = s)
  ∧ (∀ (s : ServerState) (conn : Nat),
       idleInvariant s → idleInvariant (handleDisconnect s conn).1) :=
  ⟨idleInvariant_init, idleInvariant_connect, idleInvariant_initiateCall,
   idleInvariant_rejectCall, idleInvariant_hangup, handleICECandidate_fst,
   handleOffer_fst, idleInvariant_disconnect⟩

theorem idle_coupling_preservation_witness :
    idleInvariant (handleHangup
      { clients := [{ conn := 1, id := "x", status := "calling", callID := "c1",
                      isCaller := true }],
        rooms := [{ id := "c1", participants := [1], callerConn := some 1 }] }
      1 "c1" "hangup").1 :=
  idle_coupling_preservation.2.2.2.2.1
    { clients := [{ conn := 1, id := "x", status := "calling", callID := "c1",
                    isCaller := true }],
      rooms := [{ id := "c1", participants := [1], callerConn := some 1 }] }
    1 "c1" "hangup" (by decide)

/-- Claim C1 counterexample: a freshly connected client (idle, empty CallID)
sends `presence_update` with the client-supplied status "in-call";
handlePresenceUpdate stores that status while the CallID stays empty, so the
reachable post-state violates the claimed equivalence. -/
theorem presenceUpdate_breaks_idle_coupling :
    ¬ idleInvariant (runTrace
        [Event.connect 1 "x",
         Event.inbound 1 { type := "presence_update", status := "in-call" } "" 0]) := by
  decide

end Vidoechat
